import Mathlib

/-!
Shallow embedding of the SteppePulse Telegram bot (src/telegram.py):
content tables, the keyword-driven conversation handler, the inline-button
callback resolver and the daily broadcast message selector, together with
theorems settling the specification claims about them.

Strings are modelled by Lean `String`.  Python's `str.lower()` is modelled
by ASCII lower-casing (all configured keywords are ASCII), and Python's
substring test `k in m` by an explicit occurrence check on character lists.
-/

namespace SteppePulse

/-- One entry of the `TEAM_MEMBERS` table (telegram.py lines 24-45). -/
structure TeamMember where
  name : String
  role : String
  description : String
deriving DecidableEq, Repr

/-- One entry of the `ECOSYSTEMS` table (telegram.py lines 47-64). -/
structure Ecosystem where
  title : String
  description : String
deriving DecidableEq, Repr

/-- One entry of the `FAQS` table (telegram.py lines 66-83). -/
structure FAQEntry where
  question : String
  answer : String
deriving DecidableEq, Repr

/-- The `TEAM_MEMBERS` table, verbatim from telegram.py lines 24-45. -/
def TEAM_MEMBERS : List TeamMember :=
  [ { name := "Henry Kimani"
    , role := "CEO & co-founder"
    , description := "Software Engineer." }
  , { name := "Bridgit Nyambeka"
    , role := "Project Manager & co-founder"
    , description := "Software Engineer & Graphic Designer" }
  , { name := "Mirriam Njeri"
    , role := "Marketing, Community lead & co-founder"
    , description := "Journalist & software developer." }
  , { name := "Brandistone Nyabonyi"
    , role := "CTO & co-founder"
    , description := "Software Engineer" } ]

/-- The `ECOSYSTEMS` table, verbatim from telegram.py lines 47-64. -/
def ECOSYSTEMS : List Ecosystem :=
  [ { title := "Marine Conservation"
    , description := "Protecting ocean biodiversity through blockchain-powered initiatives" }
  , { title := "Forest Preservation"
    , description := "Securing critical forest habitats and supporting reforestation efforts" }
  , { title := "Alpine Ecosystem"
    , description := "Safeguarding high-altitude wildlife and fragile mountain environments" }
  , { title := "Migratory Pathways"
    , description := "Tracking and protecting critical migration routes for endangered species" } ]

/-- The `FAQS` table, verbatim from telegram.py lines 66-83. -/
def FAQS : List FAQEntry :=
  [ { question := "What is our primary mission?"
    , answer := "We aim to leverage blockchain technology to support wildlife conservation efforts, creating unique digital assets that directly contribute to ecosystem preservation." }
  , { question := "How do NFTs support conservation?"
    , answer := "Each NFT represents a direct contribution to wildlife protection, with proceeds funding conservation projects, research, and habitat preservation." }
  , { question := "Can anyone join the community?"
    , answer := "Absolutely! We welcome anyone passionate about wildlife conservation and innovative blockchain solutions to join our global community." }
  , { question := "How are funds used?"
    , answer := "Funds are carefully allocated to vetted conservation projects, scientific research, and community-driven initiatives that protect endangered ecosystems." } ]

/-- ASCII lower-casing of one character, as Python's `str.lower()` acts on
the ASCII range (all configured keywords and all claim inputs are ASCII). -/
def lowerChar (c : Char) : Char :=
  if 'A' ≤ c ∧ c ≤ 'Z' then Char.ofNat (c.toNat + 32) else c

/-- Model of `message.lower()` (telegram.py line 94). -/
def lowerStr (s : String) : String := ⟨s.data.map lowerChar⟩

/-- `hasPre pat s`: the character list `pat` starts the character list `s`. -/
def hasPre : List Char → List Char → Bool
  | [], _ => true
  | _ :: _, [] => false
  | a :: as, b :: bs => a == b && hasPre as bs

/-- `subOccurs pat s`: the character list `pat` occurs contiguously in `s`. -/
def subOccurs (pat : List Char) : List Char → Bool
  | [] => hasPre pat []
  | b :: bs => hasPre pat (b :: bs) || subOccurs pat bs

/-- Model of Python's substring test `pat in s` (telegram.py lines 97, 103,
110, 117: `keyword in message_lower`). -/
def occursIn (pat s : String) : Bool := subOccurs pat.data s.data

/-- Model of `any(keyword in m for keyword in ks)`. -/
def anyKeyword (ks : List String) (m : String) : Bool :=
  ks.any (fun k => occursIn k m)

/-- Mission keyword list (telegram.py line 97). -/
def missionKeywords : List String := ["mission", "goal", "purpose"]

/-- Team keyword list (telegram.py line 103). -/
def teamKeywords : List String := ["team", "founder", "members"]

/-- Ecosystem keyword list (telegram.py line 110). -/
def ecosystemKeywords : List String := ["ecosystem", "conservation", "project"]

/-- FAQ keyword list (telegram.py line 117). -/
def faqKeywords : List String := ["help", "question", "faq"]

/-- All twelve configured keywords, in priority order. -/
def allKeywords : List String :=
  missionKeywords ++ teamKeywords ++ ecosystemKeywords ++ faqKeywords

/-- The fixed mission reply (telegram.py lines 98-100, with the trailing
space of the second source line preserved). -/
def missionText : String :=
  "🌍 Steppe Pulse Mission:\nWe're pioneering a revolutionary intersection of blockchain technology and wildlife conservation. \nOur mission is to transform digital assets into powerful conservation tools, connecting passionate global citizens with critical environmental challenges."

/-- The per-member block of the team reply (telegram.py line 106). -/
def teamBlock (m : TeamMember) : String :=
  "*" ++ m.name ++ "* - " ++ m.role ++ "\n" ++ m.description ++ "\n\n"

/-- The team reply: header then one block per member (telegram.py lines 104-107). -/
def team_info : String :=
  TEAM_MEMBERS.foldl (fun acc m => acc ++ teamBlock m) "🤝 Our Founding Team:\n\n"

/-- The per-ecosystem block of the ecosystems reply (telegram.py line 113). -/
def ecosystemBlock (e : Ecosystem) : String :=
  "*" ++ e.title ++ "*\n" ++ e.description ++ "\n\n"

/-- The ecosystems reply (telegram.py lines 111-114). -/
def ecosystem_info : String :=
  ECOSYSTEMS.foldl (fun acc e => acc ++ ecosystemBlock e) "🌱 Our Conservation Ecosystems:\n\n"

/-- The per-entry block of the FAQ reply (telegram.py line 120). -/
def faqBlock (f : FAQEntry) : String :=
  "*Q: " ++ f.question ++ "*\nA: " ++ f.answer ++ "\n\n"

/-- The FAQ reply (telegram.py lines 118-121). -/
def faq_info : String :=
  FAQS.foldl (fun acc f => acc ++ faqBlock f) "❓ Frequently Asked Questions:\n\n"

/-- The generic fallback reply (telegram.py lines 124-126, trailing spaces
of the first two source lines preserved). -/
def fallbackText : String :=
  "🤖 I'm an intelligent bot for Steppe Pulse Wildlife Conservation. \nI can help you with information about our mission, team, ecosystems, and NFT projects. \nTry asking about our mission, team, ecosystems, or frequently asked questions!"

/-- The topic enumeration of the spec (the classifier's possible outcomes). -/
inductive Topic where
  | Mission
  | Team
  | Ecosystems
  | FAQ
  | Unknown
deriving DecidableEq, Repr

/-- The spec's `classify`: the topic-selection part of `process_message`
(telegram.py lines 94, 97, 103, 110, 117, 123): lower-case the input, then
test the four keyword sets in fixed priority order. -/
def classify (text : String) : Topic :=
  let m := lowerStr text
  if anyKeyword missionKeywords m then Topic.Mission
  else if anyKeyword teamKeywords m then Topic.Team
  else if anyKeyword ecosystemKeywords m then Topic.Ecosystems
  else if anyKeyword faqKeywords m then Topic.FAQ
  else Topic.Unknown

/-- The per-chat conversation state: `self.conversation_state`, a dictionary
keyed by chat identifier (telegram.py lines 87-88), modelled as an
association list. -/
structure ConversationHandler where
  conversation_state : List (Nat × Nat)
deriving DecidableEq, Repr

/-- `ConversationHandler.__init__` (telegram.py lines 87-88): the state map
starts empty. -/
def ConversationHandler.init : ConversationHandler :=
  { conversation_state := [] }

/-- `ConversationHandler.process_message` (telegram.py lines 90-126),
modelled with explicit state passing: the method receives the handler and
returns the (possibly updated) handler together with the reply string.  The
source body never reads or writes `self.conversation_state` and ignores
`chat_id`, so the handler is returned unchanged. -/
def ConversationHandler.process_message (hd : ConversationHandler)
    (chat_id : Nat) (message : String) : ConversationHandler × String :=
  let message_lower := lowerStr message
  if anyKeyword missionKeywords message_lower then
    (hd, missionText)
  else if anyKeyword teamKeywords message_lower then
    (hd, team_info)
  else if anyKeyword ecosystemKeywords message_lower then
    (hd, ecosystem_info)
  else if anyKeyword faqKeywords message_lower then
    (hd, faq_info)
  else
    (hd, fallbackText)

/-- The fixed broadcast sequence `updates` (telegram.py lines 136-141). -/
def updates : List String :=
  [ "🐘 Did you know? African elephants are keystone species crucial for maintaining ecosystem balance."
  , "🌍 Every NFT purchased helps protect critical wildlife habitats around the globe!"
  , "🌱 Reforestation update: Our latest project has planted 1000 trees in critical forest zones."
  , "🐝 Biodiversity matters: Pollinators like bees are essential for global food security." ]

/-- `send_daily_conservation_update` (telegram.py lines 132-145): the message
sent at unix time `t` is `updates[int(time.time()) % len(updates)]`.  The
index is always in range, so Python's list indexing is modelled by `getD`. -/
def send_daily_conservation_update (t : Nat) : String :=
  updates.getD (t % updates.length) ""

/-- The team reply as rebuilt inside the callback handler
(telegram.py lines 192-194; a verbatim duplicate of lines 104-106). -/
def cb_team_info : String :=
  TEAM_MEMBERS.foldl (fun acc m => acc ++ teamBlock m) "🤝 Our Founding Team:\n\n"

/-- The ecosystems reply as rebuilt inside the callback handler
(telegram.py lines 198-200; a verbatim duplicate of lines 111-113). -/
def cb_ecosystem_info : String :=
  ECOSYSTEMS.foldl (fun acc e => acc ++ ecosystemBlock e) "🌱 Our Conservation Ecosystems:\n\n"

/-- `callback_query` (telegram.py lines 184-201), modelled by its observable
output: `some (answerText, messageText)` when the branch answers the
callback query with `answerText` and sends `messageText`, and `none` when no
branch matches (the source has no `else`, so nothing is sent or answered). -/
def callback_query (data : String) : Option (String × String) :=
  if data = "mission" then
    some ("Our Mission", ((FAQS.get ⟨0, by decide⟩).answer))
  else if data = "team" then
    some ("Our Team", cb_team_info)
  else if data = "ecosystems" then
    some ("Conservation Ecosystems", cb_ecosystem_info)
  else
    none


/-- The spec's `format`: the reply text produced for each topic, read off
the corresponding branch of `process_message`. -/
def format (t : Topic) : String :=
  match t with
  | Topic.Mission => missionText
  | Topic.Team => team_info
  | Topic.Ecosystems => ecosystem_info
  | Topic.FAQ => faq_info
  | Topic.Unknown => fallbackText

/-- Glue lemma: `process_message` leaves the handler unchanged and replies
with the formatter applied to the classified topic. -/
theorem process_message_spec (hd : ConversationHandler) (c : Nat) (s : String) :
    hd.process_message c s = (hd, format (classify s)) := by
  unfold ConversationHandler.process_message classify
  cases h1 : anyKeyword missionKeywords (lowerStr s) <;>
  cases h2 : anyKeyword teamKeywords (lowerStr s) <;>
  cases h3 : anyKeyword ecosystemKeywords (lowerStr s) <;>
  cases h4 : anyKeyword faqKeywords (lowerStr s) <;>
  simp [h1, h2, h3, h4, format]

/-- A keyword set whose every member is absent from `m` does not match `m`. -/
theorem anyKeyword_false_of_forall (ks : List String) (m : String)
    (h : ∀ k ∈ ks, occursIn k m = false) : anyKeyword ks m = false := by
  simp only [anyKeyword, List.any_eq_false]
  intro k hk
  simp [h k hk]


/-- C1: any input whose lower-casing contains a Mission keyword is classified
Mission and answered with the mission reply, whatever other keywords it also
contains; and the remaining topics are chosen by the fixed priority order
Mission > Team > Ecosystems > FAQ (a set only wins when every
higher-priority set failed to match). -/
theorem c1_mission_priority (s : String)
    (h : anyKeyword missionKeywords (lowerStr s) = true) :
    classify s = Topic.Mission ∧
    (∀ (hd : ConversationHandler) (c : Nat),
        (hd.process_message c s).2 = missionText) ∧
    (∀ s2, anyKeyword missionKeywords (lowerStr s2) = false →
        anyKeyword teamKeywords (lowerStr s2) = true →
        classify s2 = Topic.Team) ∧
    (∀ s2, anyKeyword missionKeywords (lowerStr s2) = false →
        anyKeyword teamKeywords (lowerStr s2) = false →
        anyKeyword ecosystemKeywords (lowerStr s2) = true →
        classify s2 = Topic.Ecosystems) ∧
    (∀ s2, anyKeyword missionKeywords (lowerStr s2) = false →
        anyKeyword teamKeywords (lowerStr s2) = false →
        anyKeyword ecosystemKeywords (lowerStr s2) = false →
        anyKeyword faqKeywords (lowerStr s2) = true →
        classify s2 = Topic.FAQ) := by
  refine ⟨by simp [classify, h], ?_, ?_, ?_, ?_⟩
  · intro hd c
    simp [ConversationHandler.process_message, h]
  · intro s2 h1 h2
    simp [classify, h1, h2]
  · intro s2 h1 h2 h3
    simp [classify, h1, h2, h3]
  · intro s2 h1 h2 h3 h4
    simp [classify, h1, h2, h3, h4]

/-- Witness for C1 at the concrete input "our team mission", which contains
both a Mission and a Team keyword. -/
theorem c1_mission_priority_witness :
    anyKeyword missionKeywords (lowerStr "our team mission") = true ∧
    anyKeyword teamKeywords (lowerStr "our team mission") = true ∧
    classify "our team mission" = Topic.Mission ∧
    (ConversationHandler.init.process_message 7 "our team mission").2 = missionText := by
  have h : anyKeyword missionKeywords (lowerStr "our team mission") = true := by decide
  exact ⟨h, by decide, (c1_mission_priority "our team mission" h).1,
    (c1_mission_priority "our team mission" h).2.1 ConversationHandler.init 7⟩

/-- C2: the "mission" callback answers the query and sends exactly the first
FAQ entry's answer, which differs from the Mission reply constant that
`process_message` produces for the Mission topic. -/
theorem c2_mission_callback_quirk :
    callback_query "mission" = some ("Our Mission", (FAQS.get ⟨0, by decide⟩).answer) ∧
    (FAQS.get ⟨0, by decide⟩).answer ≠ missionText := by
  exact ⟨rfl, by decide⟩

set_option maxRecDepth 10000 in
/-- C3: for every unix timestamp `t`, the update sequence has exactly 4
elements and the broadcast sends `updates[t mod 4]`; and whenever
`t mod 4 = 2` the message sent is the reforestation update string. -/
theorem c3_broadcast_mod (t : Nat) :
    updates.length = 4 ∧
    send_daily_conservation_update t = updates.getD (t % 4) "" ∧
    (t % 4 = 2 →
      send_daily_conservation_update t =
        "🌱 Reforestation update: Our latest project has planted 1000 trees in critical forest zones.") := by
  refine ⟨rfl, rfl, ?_⟩
  intro h
  show updates.getD (t % 4) "" = _
  rw [h]
  decide

/-- Witness for C3 at the concrete timestamp 6, for which 6 mod 4 = 2. -/
theorem c3_broadcast_mod_witness :
    6 % 4 = 2 ∧
    send_daily_conservation_update 6 = updates.getD (6 % 4) "" ∧
    send_daily_conservation_update 6 =
      "🌱 Reforestation update: Our latest project has planted 1000 trees in critical forest zones." := by
  have h : 6 % 4 = 2 := by decide
  exact ⟨h, (c3_broadcast_mod 6).2.1, (c3_broadcast_mod 6).2.2 h⟩

/-- C4: an input whose lower-casing contains none of the twelve configured
keywords is classified Unknown, and `process_message` replies with the fixed
fallback string, verbatim. -/
theorem c4_unknown_fallback (s : String)
    (h : ∀ k ∈ allKeywords, occursIn k (lowerStr s) = false) :
    classify s = Topic.Unknown ∧
    ∀ (hd : ConversationHandler) (c : Nat),
      (hd.process_message c s).2 = fallbackText := by
  have hsub : ∀ k, k ∈ missionKeywords ∨ k ∈ teamKeywords ∨
      k ∈ ecosystemKeywords ∨ k ∈ faqKeywords → k ∈ allKeywords := by
    intro k hk
    simp only [allKeywords, List.mem_append]
    tauto
  have hm : anyKeyword missionKeywords (lowerStr s) = false :=
    anyKeyword_false_of_forall _ _ (fun k hk => h k (hsub k (Or.inl hk)))
  have ht : anyKeyword teamKeywords (lowerStr s) = false :=
    anyKeyword_false_of_forall _ _ (fun k hk => h k (hsub k (Or.inr (Or.inl hk))))
  have he : anyKeyword ecosystemKeywords (lowerStr s) = false :=
    anyKeyword_false_of_forall _ _ (fun k hk => h k (hsub k (Or.inr (Or.inr (Or.inl hk)))))
  have hf : anyKeyword faqKeywords (lowerStr s) = false :=
    anyKeyword_false_of_forall _ _ (fun k hk => h k (hsub k (Or.inr (Or.inr (Or.inr hk)))))
  constructor
  · simp [classify, hm, ht, he, hf]
  · intro hd c
    simp [ConversationHandler.process_message, hm, ht, he, hf]

/-- Witness for C4 at the concrete keyword-free input "xyz". -/
theorem c4_unknown_fallback_witness :
    (∀ k ∈ allKeywords, occursIn k (lowerStr "xyz") = false) ∧
    classify "xyz" = Topic.Unknown ∧
    (ConversationHandler.init.process_message 7 "xyz").2 = fallbackText := by
  have h : ∀ k ∈ allKeywords, occursIn k (lowerStr "xyz") = false := by decide
  exact ⟨h, (c4_unknown_fallback "xyz" h).1,
    (c4_unknown_fallback "xyz" h).2 ConversationHandler.init 7⟩

set_option maxRecDepth 10000 in
/-- C5: the team reply is the header followed by exactly one block per
`TEAM_MEMBERS` entry, in table order (Henry Kimani first), and each block
contains that entry's name, role and description as substrings. -/
theorem c5_team_blocks :
    team_info = "🤝 Our Founding Team:\n\n" ++ String.join (TEAM_MEMBERS.map teamBlock) ∧
    TEAM_MEMBERS.map TeamMember.name =
      ["Henry Kimani", "Bridgit Nyambeka", "Mirriam Njeri", "Brandistone Nyabonyi"] ∧
    ∀ m ∈ TEAM_MEMBERS,
      occursIn m.name (teamBlock m) = true ∧
      occursIn m.role (teamBlock m) = true ∧
      occursIn m.description (teamBlock m) = true := by
  exact ⟨by decide, by decide, by decide⟩

set_option maxRecDepth 10000 in
/-- C6 counterexample: the claimed block shape `name — role` (bare name, em
dash) never occurs in the team reply; the actual first line of the first
block is `*Henry Kimani* - CEO & co-founder` (asterisks around the name,
plain hyphen). -/
theorem c6_counterexample :
    occursIn "Henry Kimani — CEO & co-founder" team_info = false ∧
    occursIn "*Henry Kimani* - CEO & co-founder" team_info = true := by
  exact ⟨by decide, by decide⟩

set_option maxRecDepth 10000 in
/-- C6 amended: the team reply is the header line and a blank line followed,
for each TeamMember in table order, by a block `*name* - role` on one line
and the description on the next, consecutive blocks separated by a single
blank line, with a trailing blank line after the last block. -/
theorem c6_team_shape_amended :
    team_info = "🤝 Our Founding Team:\n\n" ++
      String.intercalate "\n\n"
        (TEAM_MEMBERS.map (fun m => "*" ++ m.name ++ "* - " ++ m.role ++ "\n" ++ m.description)) ++
      "\n\n" := by decide

/-- C7: keyword matching is plain substring containment without token
boundaries: "projectile" contains no Mission or Team keyword, yet the
Ecosystem keyword "project" occurs inside it as a substring, so it is
classified Ecosystems. -/
theorem c7_substring_no_boundary :
    anyKeyword missionKeywords (lowerStr "projectile") = false ∧
    anyKeyword teamKeywords (lowerStr "projectile") = false ∧
    occursIn "project" (lowerStr "projectile") = true ∧
    classify "projectile" = Topic.Ecosystems := by decide

/-- C8 counterexample: processing the message "hello" for chat 5 leaves a
handler's conversation-state map exactly as it was, so the map is not
written to when a message is processed. -/
theorem c8_counterexample :
    (ConversationHandler.process_message { conversation_state := [(1, 2)] } 5 "hello").1 =
      { conversation_state := [(1, 2)] } := by
  rfl

/-- C8 amended: the conversation-state map starts empty at handler
construction and is thereafter neither written nor read by message
processing: `process_message` returns the handler unchanged and its reply
does not depend on the map's contents. -/
theorem c8_state_unused_amended (hd : ConversationHandler) (c : Nat) (s : String) :
    ConversationHandler.init.conversation_state = [] ∧
    (hd.process_message c s).1 = hd ∧
    (hd.process_message c s).2 = (ConversationHandler.init.process_message c s).2 := by
  refine ⟨rfl, ?_, ?_⟩
  · rw [process_message_spec]
  · rw [process_message_spec, process_message_spec]

set_option maxRecDepth 10000 in
/-- Every topic's formatted reply is non-empty. -/
theorem format_ne_empty (t : Topic) : format t ≠ "" := by
  cases t <;> decide

/-- C9: `process_message` is total on string inputs and every branch of the
keyword dispatch, fallback included, yields a non-empty reply (totality is
inherent in the embedding: the operation is a total Lean function). -/
theorem c9_total_nonempty (hd : ConversationHandler) (c : Nat) (s : String) :
    (hd.process_message c s).2 ≠ "" := by
  rw [process_message_spec]
  exact format_ne_empty (classify s)

/-- C10: a callback whose id is outside the three handled values produces no
output at all: the branchless fall-through neither answers the callback
query nor sends a message. -/
theorem c10_unknown_callback_ignored (data : String)
    (h : data ∉ (["mission", "team", "ecosystems"] : List String)) :
    callback_query data = none := by
  have h1 : ¬ data = "mission" := fun e => h (by rw [e]; simp)
  have h2 : ¬ data = "team" := fun e => h (by rw [e]; simp)
  have h3 : ¬ data = "ecosystems" := fun e => h (by rw [e]; simp)
  simp [callback_query, h1, h2, h3]

/-- Witness for C10 at the concrete unhandled callback id "faq". -/
theorem c10_unknown_callback_ignored_witness :
    ("faq" ∉ (["mission", "team", "ecosystems"] : List String)) ∧
    callback_query "faq" = none := by
  have h : ("faq" : String) ∉ (["mission", "team", "ecosystems"] : List String) := by decide
  exact ⟨h, c10_unknown_callback_ignored "faq" h⟩

end SteppePulse
